import Mathlib

/-
Verification of src/models/Discriminator.py.

The file shallowly embeds the PyTorch modules the discriminator is built
from (Conv2d, BatchNorm2d, LeakyReLU, AvgPool2d, Flatten, Linear, Sigmoid,
Softmax) as functions on a dense tensor type over the reals, then embeds
`Discriminator.__init__`, `Discriminator.forward` (with its assertion
chain, and with the BatchNorm buffer mutations made explicit by state
passing) and `Discriminator.display_gradients`, and proves the claimed
properties about them.
-/

namespace StyleGAN

noncomputable section

/-- A dense tensor: a shape together with data addressed by multi-indices.
Entries at indices outside the shape are junk and are never observed. -/
structure Tensor where
  shape : List Nat
  data : List Nat → ℝ

/-- Size of dimension `i` of a tensor (0 when the rank is exceeded). -/
def Tensor.dim (t : Tensor) (i : Nat) : Nat := t.shape.getD i 0

/-- Spatial output size of a 2-D convolution or pooling window, as computed
by torch: floor((size + 2*padding - kernel) / stride) + 1. -/
def convOut (size kernel stride padding : Nat) : Nat :=
  (size + 2 * padding - kernel) / stride + 1

/-- Read an entry of the zero-padded extension of a rank-4 tensor,
addressed by possibly negative spatial coordinates. -/
def padRead (t : Tensor) (b c : Nat) (i j : Int) : ℝ :=
  if 0 ≤ i ∧ i < (t.dim 2 : Int) ∧ 0 ≤ j ∧ j < (t.dim 3 : Int) then
    t.data [b, c, i.toNat, j.toNat]
  else 0

/-- Hyperparameters and learnable parameters of a torch.nn.Conv2d module. -/
structure Conv2d where
  inChannels : Nat
  outChannels : Nat
  kernel : Nat × Nat
  stride : Nat × Nat
  padding : Nat × Nat
  weight : Nat → Nat → Nat → Nat → ℝ
  bias : Nat → ℝ

/-- Forward pass of torch.nn.Conv2d: cross-correlation with zero padding
plus a per-output-channel bias. -/
def Conv2d.apply (c : Conv2d) (t : Tensor) : Tensor where
  shape := [t.dim 0, c.outChannels,
    convOut (t.dim 2) c.kernel.1 c.stride.1 c.padding.1,
    convOut (t.dim 3) c.kernel.2 c.stride.2 c.padding.2]
  data := fun idx =>
    match idx with
    | [b, oc, oh, ow] =>
      c.bias oc + ∑ ic ∈ Finset.range c.inChannels, ∑ ki ∈ Finset.range c.kernel.1,
        ∑ kj ∈ Finset.range c.kernel.2,
          c.weight oc ic ki kj *
            padRead t b ic ((oh * c.stride.1 + ki : Int) - c.padding.1)
              ((ow * c.stride.2 + kj : Int) - c.padding.2)
    | _ => 0

/-- Forward pass of torch.nn.LeakyReLU with the given negative slope. -/
def leakyRelu (slope : ℝ) (t : Tensor) : Tensor where
  shape := t.shape
  data := fun idx => if 0 ≤ t.data idx then t.data idx else slope * t.data idx

/-- Learnable affine parameters of a torch.nn.BatchNorm2d module. -/
structure BatchNorm2d where
  numFeatures : Nat
  weight : Nat → ℝ
  bias : Nat → ℝ

/-- Buffers of a torch.nn.BatchNorm2d module: the running statistics and
the batch counter, mutated by forward in training mode. -/
structure BNState where
  runningMean : Nat → ℝ
  runningVar : Nat → ℝ
  numBatchesTracked : Nat

/-- BatchNorm2d eps (torch default 1e-5). -/
def bnEps : ℝ := 1 / 100000

/-- BatchNorm2d momentum (torch default 0.1). -/
def bnMomentum : ℝ := 1 / 10

/-- Number of elements a per-channel batch statistic of a rank-4 tensor
averages over: batch * height * width. -/
def statCount (t : Tensor) : Nat := t.dim 0 * t.dim 2 * t.dim 3

/-- Per-channel mean of the current batch. -/
def batchMean (t : Tensor) (c : Nat) : ℝ :=
  (∑ b ∈ Finset.range (t.dim 0), ∑ i ∈ Finset.range (t.dim 2),
    ∑ j ∈ Finset.range (t.dim 3), t.data [b, c, i, j]) / (statCount t : ℝ)

/-- Per-channel biased variance of the current batch (used for
normalization in training mode). -/
def batchVar (t : Tensor) (c : Nat) : ℝ :=
  (∑ b ∈ Finset.range (t.dim 0), ∑ i ∈ Finset.range (t.dim 2),
    ∑ j ∈ Finset.range (t.dim 3), (t.data [b, c, i, j] - batchMean t c) ^ 2) /
    (statCount t : ℝ)

/-- Per-channel unbiased variance of the current batch (used for the
running-variance update in training mode). -/
def batchVarUnbiased (t : Tensor) (c : Nat) : ℝ :=
  (∑ b ∈ Finset.range (t.dim 0), ∑ i ∈ Finset.range (t.dim 2),
    ∑ j ∈ Finset.range (t.dim 3), (t.data [b, c, i, j] - batchMean t c) ^ 2) /
    ((statCount t : ℝ) - 1)

/-- Output tensor of BatchNorm2d.forward: training mode normalizes with the
statistics of the current batch, eval mode with the running statistics;
both then apply the learnable affine correction. -/
def BatchNorm2d.out (bn : BatchNorm2d) (training : Bool) (s : BNState) (t : Tensor) : Tensor where
  shape := t.shape
  data := fun idx =>
    match idx with
    | [b, c, i, j] =>
      if training then
        bn.weight c * ((t.data [b, c, i, j] - batchMean t c) /
          Real.sqrt (batchVar t c + bnEps)) + bn.bias c
      else
        bn.weight c * ((t.data [b, c, i, j] - s.runningMean c) /
          Real.sqrt (s.runningVar c + bnEps)) + bn.bias c
    | _ => 0

/-- Buffer update performed by BatchNorm2d.forward: in training mode the
running statistics take an exponential step (momentum 0.1) toward the
current batch statistics (unbiased variance) and the batch counter
increments; eval mode leaves the buffers unchanged. -/
def bnStep (training : Bool) (s : BNState) (t : Tensor) : BNState :=
  if training then
    { runningMean := fun c =>
        (1 - bnMomentum) * s.runningMean c + bnMomentum * batchMean t c
      runningVar := fun c =>
        (1 - bnMomentum) * s.runningVar c + bnMomentum * batchVarUnbiased t c
      numBatchesTracked := s.numBatchesTracked + 1 }
  else s

/-- Forward pass of torch.nn.AvgPool2d with square kernel `k` and the
default stride (= kernel size) and no padding. -/
def avgPool2d (k : Nat) (t : Tensor) : Tensor where
  shape := [t.dim 0, t.dim 1, t.dim 2 / k, t.dim 3 / k]
  data := fun idx =>
    match idx with
    | [b, c, oi, oj] =>
      (∑ di ∈ Finset.range k, ∑ dj ∈ Finset.range k,
        t.data [b, c, oi * k + di, oj * k + dj]) / ((k : ℝ) * k)
    | _ => 0

/-- Forward pass of torch.nn.Flatten with the default start dimension 1,
applied to a rank-4 tensor. -/
def flatten (t : Tensor) : Tensor where
  shape := [t.dim 0, t.dim 1 * t.dim 2 * t.dim 3]
  data := fun idx =>
    match idx with
    | [b, i] =>
      t.data [b, i / (t.dim 2 * t.dim 3), i % (t.dim 2 * t.dim 3) / t.dim 3,
        i % t.dim 3]
    | _ => 0

/-- Parameters of a torch.nn.Linear module. -/
structure Linear where
  inFeatures : Nat
  outFeatures : Nat
  weight : Nat → Nat → ℝ
  bias : Nat → ℝ

/-- Forward pass of torch.nn.Linear on a rank-2 input: an affine map of
the last dimension. -/
def Linear.apply (l : Linear) (t : Tensor) : Tensor where
  shape := [t.dim 0, l.outFeatures]
  data := fun idx =>
    match idx with
    | [b, j] => l.bias j + ∑ i ∈ Finset.range l.inFeatures, l.weight j i * t.data [b, i]
    | _ => 0

/-- Logistic function applied by torch.nn.Sigmoid. -/
def sigmoidFun (x : ℝ) : ℝ := 1 / (1 + Real.exp (-x))

/-- Forward pass of torch.nn.Sigmoid: elementwise logistic squashing. -/
def sigmoid (t : Tensor) : Tensor where
  shape := t.shape
  data := fun idx => sigmoidFun (t.data idx)

/-- Forward pass of torch.nn.Softmax with dim=0 on a rank-2 input: each
entry is exponentiated and divided by the sum of the exponentials of its
column, i.e. normalization runs along the batch axis. -/
def softmaxDim0 (t : Tensor) : Tensor where
  shape := t.shape
  data := fun idx =>
    match idx with
    | [i, j] =>
      Real.exp (t.data [i, j]) / ∑ b ∈ Finset.range (t.dim 0), Real.exp (t.data [b, j])
    | _ => 0

/-- Learnable parameters of the Discriminator together with its
configuration, as set up by `Discriminator.__init__`: the negative slope
shared by all LeakyReLU activations, the number of style classes, and the
weights of the five convolutions, the four batch norms and the two linear
heads. The layer topology (channel counts, kernels, strides, paddings) is
hard-coded in `__init__` and is therefore hard-coded in the layer
definitions below, not stored here. -/
structure Discriminator where
  negSlope : ℝ
  style_classes : Nat
  c1w : Nat → Nat → Nat → Nat → ℝ
  c1b : Nat → ℝ
  c2w : Nat → Nat → Nat → Nat → ℝ
  c2b : Nat → ℝ
  c3w : Nat → Nat → Nat → Nat → ℝ
  c3b : Nat → ℝ
  c4w : Nat → Nat → Nat → Nat → ℝ
  c4b : Nat → ℝ
  c5w : Nat → Nat → Nat → Nat → ℝ
  c5b : Nat → ℝ
  g2 : Nat → ℝ
  be2 : Nat → ℝ
  g3 : Nat → ℝ
  be3 : Nat → ℝ
  g4 : Nat → ℝ
  be4 : Nat → ℝ
  g5 : Nat → ℝ
  be5 : Nat → ℝ
  pw : Nat → Nat → ℝ
  pb : Nat → ℝ
  sw : Nat → Nat → ℝ
  sb : Nat → ℝ

/-- Conv2d(in_channels=3, out_channels=64, kernel_size=(4,4), stride=(2,2), padding=(1,1)). -/
def Discriminator.conv1 (d : Discriminator) : Conv2d :=
  ⟨3, 64, (4, 4), (2, 2), (1, 1), d.c1w, d.c1b⟩

/-- Conv2d(in_channels=64, out_channels=128, kernel_size=(4,4), stride=(2,2), padding=(1,1)). -/
def Discriminator.conv2 (d : Discriminator) : Conv2d :=
  ⟨64, 128, (4, 4), (2, 2), (1, 1), d.c2w, d.c2b⟩

/-- Conv2d(in_channels=128, out_channels=256, kernel_size=(4,4), stride=(2,2), padding=(1,1)). -/
def Discriminator.conv3 (d : Discriminator) : Conv2d :=
  ⟨128, 256, (4, 4), (2, 2), (1, 1), d.c3w, d.c3b⟩

/-- Conv2d(in_channels=256, out_channels=512, kernel_size=(4,4), stride=(2,2), padding=(1,1)). -/
def Discriminator.conv4 (d : Discriminator) : Conv2d :=
  ⟨256, 512, (4, 4), (2, 2), (1, 1), d.c4w, d.c4b⟩

/-- Conv2d(in_channels=512, out_channels=512, kernel_size=(3,3), padding=(1,1)); the
stride is the torch default (1,1). -/
def Discriminator.conv5 (d : Discriminator) : Conv2d :=
  ⟨512, 512, (3, 3), (1, 1), (1, 1), d.c5w, d.c5b⟩

/-- BatchNorm2d(num_features=128) of layer 2. -/
def Discriminator.bn2 (d : Discriminator) : BatchNorm2d := ⟨128, d.g2, d.be2⟩

/-- BatchNorm2d(num_features=256) of layer 3. -/
def Discriminator.bn3 (d : Discriminator) : BatchNorm2d := ⟨256, d.g3, d.be3⟩

/-- BatchNorm2d(num_features=512) of layer 4. -/
def Discriminator.bn4 (d : Discriminator) : BatchNorm2d := ⟨512, d.g4, d.be4⟩

/-- BatchNorm2d(num_features=512) of layer 5. -/
def Discriminator.bn5 (d : Discriminator) : BatchNorm2d := ⟨512, d.g5, d.be5⟩

/-- Linear head used inside `self.probabilities`: Linear(512, 1). -/
def Discriminator.probLin (d : Discriminator) : Linear := ⟨512, 1, d.pw, d.pb⟩

/-- Linear head used inside `self.styles`: Linear(512, style_classes). -/
def Discriminator.styleLin (d : Discriminator) : Linear :=
  ⟨512, d.style_classes, d.sw, d.sb⟩

/-- self.layer1: Conv2d then LeakyReLU (no batch norm). -/
def Discriminator.layer1 (d : Discriminator) (x : Tensor) : Tensor :=
  leakyRelu d.negSlope (d.conv1.apply x)

/-- Output of self.layer2: Conv2d, BatchNorm2d, LeakyReLU. -/
def Discriminator.layer2 (d : Discriminator) (tr : Bool) (s : BNState) (x : Tensor) : Tensor :=
  leakyRelu d.negSlope (d.bn2.out tr s (d.conv2.apply x))

/-- Buffer update of self.layer2's batch norm. -/
def Discriminator.layer2step (d : Discriminator) (tr : Bool) (s : BNState) (x : Tensor) : BNState :=
  bnStep tr s (d.conv2.apply x)

/-- Output of self.layer3: Conv2d, BatchNorm2d, LeakyReLU. -/
def Discriminator.layer3 (d : Discriminator) (tr : Bool) (s : BNState) (x : Tensor) : Tensor :=
  leakyRelu d.negSlope (d.bn3.out tr s (d.conv3.apply x))

/-- Buffer update of self.layer3's batch norm. -/
def Discriminator.layer3step (d : Discriminator) (tr : Bool) (s : BNState) (x : Tensor) : BNState :=
  bnStep tr s (d.conv3.apply x)

/-- Output of self.layer4: Conv2d, BatchNorm2d, LeakyReLU. -/
def Discriminator.layer4 (d : Discriminator) (tr : Bool) (s : BNState) (x : Tensor) : Tensor :=
  leakyRelu d.negSlope (d.bn4.out tr s (d.conv4.apply x))

/-- Buffer update of self.layer4's batch norm. -/
def Discriminator.layer4step (d : Discriminator) (tr : Bool) (s : BNState) (x : Tensor) : BNState :=
  bnStep tr s (d.conv4.apply x)

/-- Output of self.layer5: Conv2d, BatchNorm2d, LeakyReLU. -/
def Discriminator.layer5 (d : Discriminator) (tr : Bool) (s : BNState) (x : Tensor) : Tensor :=
  leakyRelu d.negSlope (d.bn5.out tr s (d.conv5.apply x))

/-- Buffer update of self.layer5's batch norm. -/
def Discriminator.layer5step (d : Discriminator) (tr : Bool) (s : BNState) (x : Tensor) : BNState :=
  bnStep tr s (d.conv5.apply x)

/-- self.probabilities: Linear(512, 1) followed by Sigmoid. -/
def Discriminator.probabilities (d : Discriminator) (t : Tensor) : Tensor :=
  sigmoid (d.probLin.apply t)

/-- self.styles: Linear(512, style_classes) followed by Softmax(dim=0). -/
def Discriminator.styles (d : Discriminator) (t : Tensor) : Tensor :=
  softmaxDim0 (d.styleLin.apply t)

/-- Buffers of the four batch-norm modules of layers 2-5. -/
structure BNStates where
  s2 : BNState
  s3 : BNState
  s4 : BNState
  s5 : BNState

/-- Value of the local variable x after `x = self.layer2(x)` in forward. -/
def Discriminator.x2 (d : Discriminator) (tr : Bool) (st : BNStates) (x : Tensor) : Tensor :=
  d.layer2 tr st.s2 (d.layer1 x)

/-- Value of the local variable x after `x = self.layer3(x)` in forward. -/
def Discriminator.x3 (d : Discriminator) (tr : Bool) (st : BNStates) (x : Tensor) : Tensor :=
  d.layer3 tr st.s3 (d.x2 tr st x)

/-- Value of the local variable x after `x = self.layer4(x)` in forward. -/
def Discriminator.x4 (d : Discriminator) (tr : Bool) (st : BNStates) (x : Tensor) : Tensor :=
  d.layer4 tr st.s4 (d.x3 tr st x)

/-- Value of the local variable x after `x = self.layer5(x)` in forward. -/
def Discriminator.x5 (d : Discriminator) (tr : Bool) (st : BNStates) (x : Tensor) : Tensor :=
  d.layer5 tr st.s5 (d.x4 tr st x)

/-- Value of the local variable `flatten` in forward: the pooled feature
map with its singleton spatial dimensions flattened away. -/
def Discriminator.flat (d : Discriminator) (tr : Bool) (st : BNStates) (x : Tensor) : Tensor :=
  flatten (avgPool2d 16 (d.x5 tr st x))

/-- The realism-probability output of forward. -/
def Discriminator.probsOut (d : Discriminator) (tr : Bool) (st : BNStates) (x : Tensor) : Tensor :=
  d.probabilities (d.flat tr st x)

/-- The style-distribution output of forward. -/
def Discriminator.stylesOut (d : Discriminator) (tr : Bool) (st : BNStates) (x : Tensor) : Tensor :=
  d.styles (d.flat tr st x)

/-- Layer 2 batch-norm buffers after forward has run layer2. -/
def Discriminator.state2 (d : Discriminator) (tr : Bool) (st : BNStates) (x : Tensor) : BNState :=
  d.layer2step tr st.s2 (d.layer1 x)

/-- Layer 3 batch-norm buffers after forward has run layer3. -/
def Discriminator.state3 (d : Discriminator) (tr : Bool) (st : BNStates) (x : Tensor) : BNState :=
  d.layer3step tr st.s3 (d.x2 tr st x)

/-- Layer 4 batch-norm buffers after forward has run layer4. -/
def Discriminator.state4 (d : Discriminator) (tr : Bool) (st : BNStates) (x : Tensor) : BNState :=
  d.layer4step tr st.s4 (d.x3 tr st x)

/-- Layer 5 batch-norm buffers after forward has run layer5. -/
def Discriminator.state5 (d : Discriminator) (tr : Bool) (st : BNStates) (x : Tensor) : BNState :=
  d.layer5step tr st.s5 (d.x4 tr st x)

/-- All batch-norm buffers after a complete run of forward. -/
def Discriminator.nextStates (d : Discriminator) (tr : Bool) (st : BNStates) (x : Tensor) : BNStates :=
  ⟨d.state2 tr st x, d.state3 tr st x, d.state4 tr st x, d.state5 tr st x⟩

/-- Message of the input-shape assert in forward (the runtime shape that the
source interpolates into some messages is elided). -/
def inputShapeMsg : String := "Only pictures with shape [-1, 3, 256, 256] are supported"

/-- Message of the assert after layer1. -/
def stage1Msg : String := "Size of x should be [-1, 64, 128, 128]"

/-- Message of the assert after layer2. -/
def stage2Msg : String := "Size of x should be [-1, 128, 64, 64]"

/-- Message of the assert after layer3. -/
def stage3Msg : String := "Size of x should be [-1, 256, 32, 32]"

/-- Message of the assert after layer4. -/
def stage4Msg : String := "Size of x should be [-1, 512, 16, 16]"

/-- Message of the assert after layer5. -/
def stage5Msg : String := "Size of x should be [-1, 512, 16, 16] after layer5"

/-- Message of the assert after pooling and flattening. -/
def flatMsg : String := "The shape of x was expected to be [-1, 512]!"

/-- Message of the assert on the probabilities head output. -/
def probsMsg : String := "Size of probabilities should be [-1, 1]"

/-- Message of the assert on the styles head output. -/
def stylesMsg : String := "Size of style probabilities should be [-1, style_classes]"

/-- Discriminator.forward. Each `assert t.shape[1:] == torch.Size(l)` of the
source becomes a guard comparing `shape.drop 1` with `l`; a failing assert
raises, which is modelled by an error result carrying the assert's message.
The batch-norm buffer mutations of the layers already executed at the point
of a failure are retained in the returned state, exactly as in the
mutable-module original; `tr` is the module's `self.training` flag. -/
def Discriminator.forward (d : Discriminator) (tr : Bool) (st : BNStates) (x : Tensor) :
    Except String (Tensor × Tensor) × BNStates :=
  if x.shape.drop 1 = [3, 256, 256] then
    if (d.layer1 x).shape.drop 1 = [64, 128, 128] then
      if (d.x2 tr st x).shape.drop 1 = [128, 64, 64] then
        if (d.x3 tr st x).shape.drop 1 = [256, 32, 32] then
          if (d.x4 tr st x).shape.drop 1 = [512, 16, 16] then
            if (d.x5 tr st x).shape.drop 1 = [512, 16, 16] then
              if (d.flat tr st x).shape.drop 1 = [512] then
                if (d.probsOut tr st x).shape.drop 1 = [1] then
                  if (d.stylesOut tr st x).shape.drop 1 = [d.style_classes] then
                    (Except.ok (d.probsOut tr st x, d.stylesOut tr st x), d.nextStates tr st x)
                  else (Except.error stylesMsg, d.nextStates tr st x)
                else (Except.error probsMsg, d.nextStates tr st x)
              else (Except.error flatMsg, d.nextStates tr st x)
            else (Except.error stage5Msg, d.nextStates tr st x)
          else (Except.error stage4Msg, ⟨d.state2 tr st x, d.state3 tr st x, d.state4 tr st x, st.s5⟩)
        else (Except.error stage3Msg, ⟨d.state2 tr st x, d.state3 tr st x, st.s4, st.s5⟩)
      else (Except.error stage2Msg, ⟨d.state2 tr st x, st.s3, st.s4, st.s5⟩)
    else (Except.error stage1Msg, st)
  else (Except.error inputShapeMsg, st)

/-- Initial values for every learnable weight of the discriminator. In the
source these come from the default random initialization of each torch
module; here they are passed in explicitly. -/
structure InitWeights where
  c1w : Nat → Nat → Nat → Nat → ℝ
  c1b : Nat → ℝ
  c2w : Nat → Nat → Nat → Nat → ℝ
  c2b : Nat → ℝ
  c3w : Nat → Nat → Nat → Nat → ℝ
  c3b : Nat → ℝ
  c4w : Nat → Nat → Nat → Nat → ℝ
  c4b : Nat → ℝ
  c5w : Nat → Nat → Nat → Nat → ℝ
  c5b : Nat → ℝ
  g2 : Nat → ℝ
  be2 : Nat → ℝ
  g3 : Nat → ℝ
  be3 : Nat → ℝ
  g4 : Nat → ℝ
  be4 : Nat → ℝ
  g5 : Nat → ℝ
  be5 : Nat → ℝ
  pw : Nat → Nat → ℝ
  pb : Nat → ℝ
  sw : Nat → Nat → ℝ
  sb : Nat → ℝ

/-- Discriminator.__init__. The constructor itself contains no validation;
the only way it can fail is that `nn.Linear(512, style_classes)` allocates
a weight tensor of size `style_classes x 512`, and torch raises a
RuntimeError when asked to create a tensor with a negative dimension
(`torch.empty` rejects negative sizes, while size 0 is a legal empty
tensor). So construction fails exactly for negative `style_classes`. -/
def mkDiscriminator (relu_negative_slope : ℝ) (style_classes : Int) (w : InitWeights) :
    Option Discriminator :=
  if style_classes < 0 then none
  else some
    { negSlope := relu_negative_slope
      style_classes := style_classes.toNat
      c1w := w.c1w, c1b := w.c1b, c2w := w.c2w, c2b := w.c2b
      c3w := w.c3w, c3b := w.c3b, c4w := w.c4w, c4b := w.c4b
      c5w := w.c5w, c5b := w.c5b
      g2 := w.g2, be2 := w.be2, g3 := w.g3, be3 := w.be3
      g4 := w.g4, be4 := w.be4, g5 := w.g5, be5 := w.be5
      pw := w.pw, pb := w.pb, sw := w.sw, sb := w.sb }

/-- Gradient tensor attached to a parameter by an external backward pass. -/
def GradTensor : Type := List Nat → ℝ

/-- The `.grad` slots of all 22 parameters of the discriminator, in
`parameters()` order within each module: for a convolutional stage weight
then bias of the convolution, then weight and bias of the batch norm when
present; for each head weight then bias of the linear layer. `none` models
a Python `None` gradient. -/
structure GradState where
  l1cw : Option GradTensor
  l1cb : Option GradTensor
  l2cw : Option GradTensor
  l2cb : Option GradTensor
  l2nw : Option GradTensor
  l2nb : Option GradTensor
  l3cw : Option GradTensor
  l3cb : Option GradTensor
  l3nw : Option GradTensor
  l3nb : Option GradTensor
  l4cw : Option GradTensor
  l4cb : Option GradTensor
  l4nw : Option GradTensor
  l4nb : Option GradTensor
  l5cw : Option GradTensor
  l5cb : Option GradTensor
  l5nw : Option GradTensor
  l5nb : Option GradTensor
  pw : Option GradTensor
  pb : Option GradTensor
  sw : Option GradTensor
  sb : Option GradTensor

/-- Parameter gradients grouped by module, in the order display_gradients
iterates: layer1, layer2, layer3, layer4, layer5, probabilities, styles. -/
def GradState.layers (g : GradState) : List (List (Option GradTensor)) :=
  [[g.l1cw, g.l1cb],
   [g.l2cw, g.l2cb, g.l2nw, g.l2nb],
   [g.l3cw, g.l3cb, g.l3nw, g.l3nb],
   [g.l4cw, g.l4cb, g.l4nw, g.l4nb],
   [g.l5cw, g.l5cb, g.l5nw, g.l5nb],
   [g.pw, g.pb],
   [g.sw, g.sb]]

/-- Message of the assert in display_gradients. -/
def gradMsg : String := "This gradient in this module is None!"

/-- Inner loop of display_gradients over one module's parameters: each
parameter's gradient is printed (collected into the returned log as a
layer-index, parameter-index, gradient triple) and then asserted non-None;
the first `None` gradient aborts with the assert's message. -/
def displayLayer (i : Nat) : Nat → List (Option GradTensor) →
    Except String (List (Nat × Nat × Option GradTensor))
  | _, [] => Except.ok []
  | j, g :: rest =>
    match g with
    | none => Except.error gradMsg
    | some t => (displayLayer i (j + 1) rest).map (fun l => (i, j, some t) :: l)

/-- Outer loop of display_gradients over the seven modules. -/
def displayModules : Nat → List (List (Option GradTensor)) →
    Except String (List (Nat × Nat × Option GradTensor))
  | _, [] => Except.ok []
  | i, l :: rest => do
    let a ← displayLayer i 0 l
    let b ← displayModules (i + 1) rest
    Except.ok (a ++ b)

/-- Discriminator.display_gradients: walks the parameters of layer1,
layer2, layer3, layer4, layer5, probabilities and styles in order, printing
each gradient and asserting it is not None. It only reads the gradient
slots; no model state is modified (the embedding returns the printed log,
or the assert message of the first missing gradient). -/
def display_gradients (g : GradState) :
    Except String (List (Nat × Nat × Option GradTensor)) :=
  displayModules 0 g.layers

/-- Modelled from the spec: the training loop, loss and autograd engine are
external to this repository ("these consume the discriminator only through
its forward-pass interface ... and its parameter/gradient collection for
backpropagation"). After one forward pass and one backward pass through a
loss combining both outputs, every parameter of every stage and both heads
carries a gradient tensor, since every stage and both heads participate in
the forward computation; only the presence of the gradients matters to the
claims, so their numeric content is left as zero tensors. -/
def gradsAfterBackward : GradState where
  l1cw := some fun _ => 0
  l1cb := some fun _ => 0
  l2cw := some fun _ => 0
  l2cb := some fun _ => 0
  l2nw := some fun _ => 0
  l2nb := some fun _ => 0
  l3cw := some fun _ => 0
  l3cb := some fun _ => 0
  l3nw := some fun _ => 0
  l3nb := some fun _ => 0
  l4cw := some fun _ => 0
  l4cb := some fun _ => 0
  l4nw := some fun _ => 0
  l4nb := some fun _ => 0
  l5cw := some fun _ => 0
  l5cb := some fun _ => 0
  l5nw := some fun _ => 0
  l5nb := some fun _ => 0
  pw := some fun _ => 0
  pb := some fun _ => 0
  sw := some fun _ => 0
  sb := some fun _ => 0

/-- A tensor of the given shape filled with zeros, used as a concrete
input in witnesses. -/
def zeroTensor (s : List Nat) : Tensor := ⟨s, fun _ => 0⟩

/-- All-zero initial weights, used as concrete weights in witnesses. -/
def zeroInit : InitWeights where
  c1w := fun _ _ _ _ => 0
  c1b := fun _ => 0
  c2w := fun _ _ _ _ => 0
  c2b := fun _ => 0
  c3w := fun _ _ _ _ => 0
  c3b := fun _ => 0
  c4w := fun _ _ _ _ => 0
  c4b := fun _ => 0
  c5w := fun _ _ _ _ => 0
  c5b := fun _ => 0
  g2 := fun _ => 1
  be2 := fun _ => 0
  g3 := fun _ => 1
  be3 := fun _ => 0
  g4 := fun _ => 1
  be4 := fun _ => 0
  g5 := fun _ => 1
  be5 := fun _ => 0
  pw := fun _ _ => 0
  pb := fun _ => 0
  sw := fun _ _ => 0
  sb := fun _ => 0

/-- A concrete discriminator with zero weights and 3 style classes. -/
def d0 : Discriminator where
  negSlope := 0
  style_classes := 3
  c1w := fun _ _ _ _ => 0
  c1b := fun _ => 0
  c2w := fun _ _ _ _ => 0
  c2b := fun _ => 0
  c3w := fun _ _ _ _ => 0
  c3b := fun _ => 0
  c4w := fun _ _ _ _ => 0
  c4b := fun _ => 0
  c5w := fun _ _ _ _ => 0
  c5b := fun _ => 0
  g2 := fun _ => 1
  be2 := fun _ => 0
  g3 := fun _ => 1
  be3 := fun _ => 0
  g4 := fun _ => 1
  be4 := fun _ => 0
  g5 := fun _ => 1
  be5 := fun _ => 0
  pw := fun _ _ => 0
  pb := fun _ => 0
  sw := fun _ _ => 0
  sb := fun _ => 0

/-- Freshly initialized batch-norm buffers as torch sets them up:
running mean 0, running variance 1, zero batches tracked. -/
def freshBN : BNState := ⟨fun _ => 0, fun _ => 1, 0⟩

/-- Fresh buffers for all four batch-norm modules. -/
def st0 : BNStates := ⟨freshBN, freshBN, freshBN, freshBN⟩

/-- Shape of the tensor produced by stage 1 on a valid batch. -/
theorem layer1_shape (d : Discriminator) {N : Nat} {x : Tensor}
    (hx : x.shape = [N, 3, 256, 256]) : (d.layer1 x).shape = [N, 64, 128, 128] := by
  simp [Discriminator.layer1, leakyRelu, Conv2d.apply, Discriminator.conv1,
    Tensor.dim, hx, convOut]

/-- Shape of the tensor produced by stage 2 on a stage-1 output. -/
theorem layer2_shape (d : Discriminator) (tr : Bool) (s : BNState) {N : Nat} {y : Tensor}
    (hy : y.shape = [N, 64, 128, 128]) : (d.layer2 tr s y).shape = [N, 128, 64, 64] := by
  simp [Discriminator.layer2, leakyRelu, BatchNorm2d.out, Conv2d.apply,
    Discriminator.conv2, Tensor.dim, hy, convOut]

/-- Shape of the tensor produced by stage 3 on a stage-2 output. -/
theorem layer3_shape (d : Discriminator) (tr : Bool) (s : BNState) {N : Nat} {y : Tensor}
    (hy : y.shape = [N, 128, 64, 64]) : (d.layer3 tr s y).shape = [N, 256, 32, 32] := by
  simp [Discriminator.layer3, leakyRelu, BatchNorm2d.out, Conv2d.apply,
    Discriminator.conv3, Tensor.dim, hy, convOut]

/-- Shape of the tensor produced by stage 4 on a stage-3 output. -/
theorem layer4_shape (d : Discriminator) (tr : Bool) (s : BNState) {N : Nat} {y : Tensor}
    (hy : y.shape = [N, 256, 32, 32]) : (d.layer4 tr s y).shape = [N, 512, 16, 16] := by
  simp [Discriminator.layer4, leakyRelu, BatchNorm2d.out, Conv2d.apply,
    Discriminator.conv4, Tensor.dim, hy, convOut]

/-- Shape of the tensor produced by stage 5 on a stage-4 output: the
stride-1 3x3 convolution with padding 1 preserves the 16x16 extent. -/
theorem layer5_shape (d : Discriminator) (tr : Bool) (s : BNState) {N : Nat} {y : Tensor}
    (hy : y.shape = [N, 512, 16, 16]) : (d.layer5 tr s y).shape = [N, 512, 16, 16] := by
  simp [Discriminator.layer5, leakyRelu, BatchNorm2d.out, Conv2d.apply,
    Discriminator.conv5, Tensor.dim, hy, convOut]

/-- Shape of the forward local x after layer2. -/
theorem x2_shape (d : Discriminator) (tr : Bool) (st : BNStates) {N : Nat} {x : Tensor}
    (hx : x.shape = [N, 3, 256, 256]) : (d.x2 tr st x).shape = [N, 128, 64, 64] :=
  layer2_shape d tr st.s2 (layer1_shape d hx)

/-- Shape of the forward local x after layer3. -/
theorem x3_shape (d : Discriminator) (tr : Bool) (st : BNStates) {N : Nat} {x : Tensor}
    (hx : x.shape = [N, 3, 256, 256]) : (d.x3 tr st x).shape = [N, 256, 32, 32] :=
  layer3_shape d tr st.s3 (x2_shape d tr st hx)

/-- Shape of the forward local x after layer4. -/
theorem x4_shape (d : Discriminator) (tr : Bool) (st : BNStates) {N : Nat} {x : Tensor}
    (hx : x.shape = [N, 3, 256, 256]) : (d.x4 tr st x).shape = [N, 512, 16, 16] :=
  layer4_shape d tr st.s4 (x3_shape d tr st hx)

/-- Shape of the forward local x after layer5. -/
theorem x5_shape (d : Discriminator) (tr : Bool) (st : BNStates) {N : Nat} {x : Tensor}
    (hx : x.shape = [N, 3, 256, 256]) : (d.x5 tr st x).shape = [N, 512, 16, 16] :=
  layer5_shape d tr st.s5 (x4_shape d tr st hx)

/-- Shape of the pooled and flattened feature vector. -/
theorem flat_shape (d : Discriminator) (tr : Bool) (st : BNStates) {N : Nat} {x : Tensor}
    (hx : x.shape = [N, 3, 256, 256]) : (d.flat tr st x).shape = [N, 512] := by
  have h5 := x5_shape d tr st hx
  simp [Discriminator.flat, flatten, avgPool2d, Tensor.dim, h5]

/-- Shape of the realism-probability output. -/
theorem probsOut_shape (d : Discriminator) (tr : Bool) (st : BNStates) {N : Nat} {x : Tensor}
    (hx : x.shape = [N, 3, 256, 256]) : (d.probsOut tr st x).shape = [N, 1] := by
  have hf := flat_shape d tr st hx
  simp [Discriminator.probsOut, Discriminator.probabilities, sigmoid, Linear.apply,
    Discriminator.probLin, Tensor.dim, hf]

/-- Shape of the style-distribution output. -/
theorem stylesOut_shape (d : Discriminator) (tr : Bool) (st : BNStates) {N : Nat} {x : Tensor}
    (hx : x.shape = [N, 3, 256, 256]) : (d.stylesOut tr st x).shape = [N, d.style_classes] := by
  have hf := flat_shape d tr st hx
  simp [Discriminator.stylesOut, Discriminator.styles, softmaxDim0, Linear.apply,
    Discriminator.styleLin, Tensor.dim, hf]

/-- On a batch of the contracted shape, every assert in forward passes and
forward returns the two head outputs together with the updated batch-norm
buffers. -/
theorem forward_ok (d : Discriminator) (tr : Bool) (st : BNStates) {N : Nat} {x : Tensor}
    (hx : x.shape = [N, 3, 256, 256]) :
    d.forward tr st x =
      (Except.ok (d.probsOut tr st x, d.stylesOut tr st x), d.nextStates tr st x) := by
  have h1 := layer1_shape d hx
  have h2 := x2_shape d tr st hx
  have h3 := x3_shape d tr st hx
  have h4 := x4_shape d tr st hx
  have h5 := x5_shape d tr st hx
  have hf := flat_shape d tr st hx
  have hp := probsOut_shape d tr st hx
  have hs := stylesOut_shape d tr st hx
  simp [Discriminator.forward, hx, h1, h2, h3, h4, h5, hf, hp, hs]

/-- A batch whose per-example shape differs from (3, 256, 256) is rejected
by the very first assert, before any convolution runs: the returned error
is the input-shape message and the batch-norm buffers are untouched. -/
theorem forward_err (d : Discriminator) (tr : Bool) (st : BNStates) {x : Tensor}
    (hx : x.shape.drop 1 ≠ [3, 256, 256]) :
    d.forward tr st x = (Except.error inputShapeMsg, st) := by
  unfold Discriminator.forward
  rw [if_neg hx]

/-- The logistic function is nonnegative. -/
theorem sigmoidFun_nonneg (x : ℝ) : 0 ≤ sigmoidFun x := by
  unfold sigmoidFun
  positivity

/-- The logistic function is at most one. -/
theorem sigmoidFun_le_one (x : ℝ) : sigmoidFun x ≤ 1 := by
  unfold sigmoidFun
  rw [div_le_one (by positivity)]
  linarith [Real.exp_pos (-x)]

/-- Entrywise description of the style output on a valid batch: entry
(i, j) is the exponential of style logit (i, j) divided by the sum of the
exponentials of the logits of class j over the whole batch. -/
theorem stylesOut_data (d : Discriminator) (tr : Bool) (st : BNStates) {N : Nat} {x : Tensor}
    (hx : x.shape = [N, 3, 256, 256]) (i j : Nat) :
    (d.stylesOut tr st x).data [i, j] =
      Real.exp ((d.styleLin.apply (d.flat tr st x)).data [i, j]) /
        ∑ b ∈ Finset.range N, Real.exp ((d.styleLin.apply (d.flat tr st x)).data [b, j]) := by
  have hdim : (d.styleLin.apply (d.flat tr st x)).dim 0 = N := by
    simp [Linear.apply, Tensor.dim, flat_shape d tr st hx]
  simp [Discriminator.stylesOut, Discriminator.styles, softmaxDim0]
  rw [hdim]

/-- Boolean success test for the result of an embedded assert-raising
operation. -/
def isOkE {α : Type} (e : Except String α) : Bool :=
  match e with
  | Except.ok _ => true
  | Except.error _ => false

/-- Mapping a function over an Except result does not change success. -/
theorem isOkE_map {α β : Type} (f : α → β) (e : Except String α) :
    isOkE (e.map f) = isOkE e := by
  cases e <;> rfl

/-- The inner loop of display_gradients succeeds exactly when every
gradient of the module is present. -/
theorem displayLayer_isOk (i : Nat) (l : List (Option GradTensor)) : ∀ j : Nat,
    (isOkE (displayLayer i j l) = true ↔ ∀ o ∈ l, o.isSome = true) := by
  induction l with
  | nil => intro j; simp [displayLayer, isOkE]
  | cons g rest ih =>
    intro j
    cases g with
    | none => simp [displayLayer, isOkE]
    | some t => simp [displayLayer, isOkE_map, ih (j + 1)]

/-- The outer loop of display_gradients succeeds exactly when every
gradient of every module is present. -/
theorem displayModules_isOk (ls : List (List (Option GradTensor))) : ∀ i : Nat,
    (isOkE (displayModules i ls) = true ↔ ∀ l ∈ ls, ∀ o ∈ l, o.isSome = true) := by
  induction ls with
  | nil => intro i; simp [displayModules, isOkE]
  | cons l rest ih =>
    intro i
    unfold displayModules
    cases h : displayLayer i 0 l with
    | error e =>
      have : ¬ ∀ o ∈ l, o.isSome = true := by
        rw [← displayLayer_isOk i l 0, h]
        simp [isOkE]
      simp [h, Bind.bind, Except.bind, isOkE, this]
    | ok a =>
      have hl : ∀ o ∈ l, o.isSome = true := by
        rw [← displayLayer_isOk i l 0, h]
        simp [isOkE]
      cases h2 : displayModules (i + 1) rest with
      | error e2 =>
        have : ¬ ∀ m ∈ rest, ∀ o ∈ m, o.isSome = true := by
          rw [← ih (i + 1), h2]
          simp [isOkE]
        simp [h, h2, Bind.bind, Except.bind, isOkE, hl, this]
      | ok b =>
        have : ∀ m ∈ rest, ∀ o ∈ m, o.isSome = true := by
          rw [← ih (i + 1), h2]
          simp [isOkE]
        simp only [h, h2, Bind.bind, Except.bind, isOkE]
        constructor
        · intro _ m hm o ho
          rcases List.mem_cons.mp hm with h' | h'
          · exact hl o (h' ▸ ho)
          · exact this m h' o ho
        · intro _
          trivial

/-- C1: for every input batch of shape (N, 3, 256, 256) with N >= 1, the
forward pass returns a pair whose first component (realism probabilities)
has shape (N, 1) with every value in [0, 1], and whose second component
(style distributions) has shape (N, style_classes). -/
theorem C1_forward_output_contract (d : Discriminator) (tr : Bool) (st : BNStates)
    (N : Nat) (x : Tensor) (_hN : 1 ≤ N) (hx : x.shape = [N, 3, 256, 256]) :
    ∃ probs styles st2,
      d.forward tr st x = (Except.ok (probs, styles), st2) ∧
      probs.shape = [N, 1] ∧ styles.shape = [N, d.style_classes] ∧
      ∀ i j : Nat, 0 ≤ probs.data [i, j] ∧ probs.data [i, j] ≤ 1 := by
  refine ⟨_, _, _, forward_ok d tr st hx, probsOut_shape d tr st hx,
    stylesOut_shape d tr st hx, ?_⟩
  intro i j
  exact ⟨sigmoidFun_nonneg _, sigmoidFun_le_one _⟩

/-- Witness for C1 at batch size 1, an all-zero image and zero weights. -/
theorem C1_witness :
    1 ≤ 1 ∧ (zeroTensor [1, 3, 256, 256]).shape = [1, 3, 256, 256] ∧
    (∃ probs styles st2,
      d0.forward true st0 (zeroTensor [1, 3, 256, 256]) = (Except.ok (probs, styles), st2) ∧
      probs.shape = [1, 1] ∧ styles.shape = [1, d0.style_classes] ∧
      ∀ i j : Nat, 0 ≤ probs.data [i, j] ∧ probs.data [i, j] ≤ 1) :=
  ⟨by decide, rfl,
    C1_forward_output_contract d0 true st0 1 (zeroTensor [1, 3, 256, 256]) (by decide) rfl⟩

/-- C2: in the current configuration the style-head normalization runs
along the batch axis: on a batch of shape (N, 3, 256, 256), for every
class index c < style_classes the N style entries of class c are
nonnegative and sum to 1 over the batch (Softmax over dim 0). -/
theorem C2_styles_normalized_over_batch (d : Discriminator) (tr : Bool) (st : BNStates)
    (N : Nat) (x : Tensor) (hN : 1 ≤ N) (hx : x.shape = [N, 3, 256, 256]) :
    ∃ probs styles st2,
      d.forward tr st x = (Except.ok (probs, styles), st2) ∧
      ∀ c : Nat, c < d.style_classes →
        (∀ i : Nat, 0 ≤ styles.data [i, c]) ∧
        (∑ i ∈ Finset.range N, styles.data [i, c]) = 1 := by
  refine ⟨_, _, _, forward_ok d tr st hx, ?_⟩
  intro c hc
  have hD : 0 < ∑ b ∈ Finset.range N,
      Real.exp ((d.styleLin.apply (d.flat tr st x)).data [b, c]) :=
    Finset.sum_pos (fun b _ => Real.exp_pos _) (Finset.nonempty_range_iff.mpr (by omega))
  constructor
  · intro i
    rw [stylesOut_data d tr st hx i c]
    exact div_nonneg (Real.exp_pos _).le hD.le
  · rw [Finset.sum_congr rfl (fun i _ => stylesOut_data d tr st hx i c),
      ← Finset.sum_div, div_self hD.ne']

/-- Witness for C2 at batch size 2, an all-zero batch and zero weights. -/
theorem C2_witness :
    1 ≤ 2 ∧ (zeroTensor [2, 3, 256, 256]).shape = [2, 3, 256, 256] ∧
    (∃ probs styles st2,
      d0.forward true st0 (zeroTensor [2, 3, 256, 256]) = (Except.ok (probs, styles), st2) ∧
      ∀ c : Nat, c < d0.style_classes →
        (∀ i : Nat, 0 ≤ styles.data [i, c]) ∧
        (∑ i ∈ Finset.range 2, styles.data [i, c]) = 1) :=
  ⟨by decide, rfl,
    C2_styles_normalized_over_batch d0 true st0 2 (zeroTensor [2, 3, 256, 256]) (by decide) rfl⟩

/-- C3: an input whose per-example channel/height/width shape differs from
(3, 256, 256) is rejected by the very first assert with its message, before
any convolution or batch-norm mutation happens (the buffers come back
unchanged). -/
theorem C3_invalid_shape_rejected (d : Discriminator) (tr : Bool) (st : BNStates)
    (x : Tensor) (hx : x.shape.drop 1 ≠ [3, 256, 256]) :
    d.forward tr st x = (Except.error inputShapeMsg, st) :=
  forward_err d tr st hx

/-- Witness for C3 at the two shapes named by the claim: a wrong channel
count (N, 4, 256, 256) and a wrong resolution (N, 3, 128, 128). -/
theorem C3_witness :
    ((zeroTensor [1, 4, 256, 256]).shape.drop 1 ≠ [3, 256, 256] ∧
      d0.forward true st0 (zeroTensor [1, 4, 256, 256]) = (Except.error inputShapeMsg, st0)) ∧
    ((zeroTensor [1, 3, 128, 128]).shape.drop 1 ≠ [3, 256, 256] ∧
      d0.forward true st0 (zeroTensor [1, 3, 128, 128]) = (Except.error inputShapeMsg, st0)) :=
  ⟨⟨by decide, C3_invalid_shape_rejected d0 true st0 (zeroTensor [1, 4, 256, 256]) (by decide)⟩,
    ⟨by decide, C3_invalid_shape_rejected d0 true st0 (zeroTensor [1, 3, 128, 128]) (by decide)⟩⟩

/-- C4: on a valid batch the five stages produce feature maps of shapes
(N,64,128,128), (N,128,64,64), (N,256,32,32), (N,512,16,16), (N,512,16,16)
in order, for every choice of weights and mode; stage 5 is the stride-1
3x3 convolution, which keeps the spatial extent at 16x16. -/
theorem C4_stage_shapes (d : Discriminator) (tr : Bool) (st : BNStates)
    (N : Nat) (x : Tensor) (hx : x.shape = [N, 3, 256, 256]) :
    (d.layer1 x).shape = [N, 64, 128, 128] ∧
    (d.x2 tr st x).shape = [N, 128, 64, 64] ∧
    (d.x3 tr st x).shape = [N, 256, 32, 32] ∧
    (d.x4 tr st x).shape = [N, 512, 16, 16] ∧
    (d.x5 tr st x).shape = [N, 512, 16, 16] ∧
    d.conv5.kernel = (3, 3) ∧ d.conv5.stride = (1, 1) :=
  ⟨layer1_shape d hx, x2_shape d tr st hx, x3_shape d tr st hx, x4_shape d tr st hx,
    x5_shape d tr st hx, rfl, rfl⟩

/-- Witness for C4 at a concrete all-zero batch of size 1. -/
theorem C4_witness :
    (zeroTensor [1, 3, 256, 256]).shape = [1, 3, 256, 256] ∧
    ((d0.layer1 (zeroTensor [1, 3, 256, 256])).shape = [1, 64, 128, 128] ∧
      (d0.x2 true st0 (zeroTensor [1, 3, 256, 256])).shape = [1, 128, 64, 64] ∧
      (d0.x3 true st0 (zeroTensor [1, 3, 256, 256])).shape = [1, 256, 32, 32] ∧
      (d0.x4 true st0 (zeroTensor [1, 3, 256, 256])).shape = [1, 512, 16, 16] ∧
      (d0.x5 true st0 (zeroTensor [1, 3, 256, 256])).shape = [1, 512, 16, 16] ∧
      d0.conv5.kernel = (3, 3) ∧ d0.conv5.stride = (1, 1)) :=
  ⟨rfl, C4_stage_shapes d0 true st0 1 (zeroTensor [1, 3, 256, 256]) rfl⟩

/-- A rank-4 shape whose tail is the contracted per-example shape is a
batch dimension followed by (3, 256, 256). -/
theorem shape_of_drop {x : Tensor} (h : x.shape.drop 1 = [3, 256, 256]) :
    ∃ n, x.shape = [n, 3, 256, 256] := by
  cases hs : x.shape with
  | nil => rw [hs] at h; simp at h
  | cons a l =>
    rw [hs] at h
    simp only [List.drop_succ_cons, List.drop_zero] at h
    subst h
    exact ⟨a, rfl⟩

/-- C5 counterexample: the constructor contains no validation, and the
underlying tensor allocation accepts size 0, so construction with
style_classes = 0 (which is < 1) succeeds rather than failing. -/
theorem C5_counterexample : (0 : Int) < 1 ∧ (mkDiscriminator 0 0 zeroInit).isSome = true :=
  ⟨by decide, rfl⟩

/-- C5 amended: construction fails exactly for negative style_classes (the
weight allocation of Linear(512, style_classes) rejects a negative size);
style_classes = 0 is accepted without any misconfiguration check; for every
k >= 1 construction succeeds, records k as the style-class count, and the
style-head output's last dimension equals k. -/
theorem C5_construction_amended :
    (∀ (s : ℝ) (w : InitWeights) (k : Int), k < 0 → mkDiscriminator s k w = none) ∧
    (∀ (s : ℝ) (w : InitWeights) (k : Int), 1 ≤ k →
      ∃ dd, mkDiscriminator s k w = some dd ∧ (dd.style_classes : Int) = k ∧
        ∀ (tr : Bool) (st : BNStates) (N : Nat) (x : Tensor), x.shape = [N, 3, 256, 256] →
          (dd.stylesOut tr st x).shape = [N, dd.style_classes]) := by
  constructor
  · intro s w k hk
    simp [mkDiscriminator, hk]
  · intro s w k hk
    have h : mkDiscriminator s k w = some
        { negSlope := s, style_classes := k.toNat
          c1w := w.c1w, c1b := w.c1b, c2w := w.c2w, c2b := w.c2b
          c3w := w.c3w, c3b := w.c3b, c4w := w.c4w, c4b := w.c4b
          c5w := w.c5w, c5b := w.c5b
          g2 := w.g2, be2 := w.be2, g3 := w.g3, be3 := w.be3
          g4 := w.g4, be4 := w.be4, g5 := w.g5, be5 := w.be5
          pw := w.pw, pb := w.pb, sw := w.sw, sb := w.sb } := by
      unfold mkDiscriminator
      rw [if_neg (by omega)]
    exact ⟨_, h, Int.toNat_of_nonneg (by omega),
      fun tr st N x hx => stylesOut_shape _ tr st hx⟩

/-- Witness for the amended C5 at k = -1 and k = 2. -/
theorem C5_witness :
    ((-1 : Int) < 0 ∧ mkDiscriminator 0 (-1) zeroInit = none) ∧
    (1 ≤ (2 : Int) ∧ ∃ dd, mkDiscriminator 0 2 zeroInit = some dd ∧
      (dd.style_classes : Int) = 2 ∧
      ∀ (tr : Bool) (st : BNStates) (N : Nat) (x : Tensor), x.shape = [N, 3, 256, 256] →
        (dd.stylesOut tr st x).shape = [N, dd.style_classes]) :=
  ⟨⟨by decide, C5_construction_amended.1 0 zeroInit (-1) (by decide)⟩,
    ⟨by decide, C5_construction_amended.2 0 zeroInit 2 (by decide)⟩⟩

/-- C6 counterexample: in training mode (the module's state after
construction) a single successful forward pass mutates model state: the
batch counter of layer 2's batch norm moves from 0 to 1, so the
batch-normalization running statistics block is not left unchanged. -/
theorem C6_counterexample :
    (d0.forward true st0 (zeroTensor [1, 3, 256, 256])).2.s2.numBatchesTracked ≠
      st0.s2.numBatchesTracked := by
  rw [forward_ok d0 true st0
    (show (zeroTensor [1, 3, 256, 256]).shape = [1, 3, 256, 256] from rfl)]
  decide

/-- C6 amended: in eval mode forward is free of side effects (all
batch-norm buffers come back unchanged); in training mode the outputs are
still a function of the input and the learnable parameters only — the
buffers do not influence them, so two calls on the same input with the
same parameters return equal outputs — but the buffers themselves are
updated by each successful pass. -/
theorem C6_purity_amended :
    (∀ (d : Discriminator) (st : BNStates) (x : Tensor), (d.forward false st x).2 = st) ∧
    (∀ (d : Discriminator) (st st2 : BNStates) (x : Tensor),
      (d.forward true st x).1 = (d.forward true st2 x).1) := by
  constructor
  · intro d st x
    by_cases h : x.shape.drop 1 = [3, 256, 256]
    · obtain ⟨n, hn⟩ := shape_of_drop h
      rw [forward_ok d false st hn]
      rfl
    · rw [forward_err d false st h]
  · intro d st st2 x
    by_cases h : x.shape.drop 1 = [3, 256, 256]
    · obtain ⟨n, hn⟩ := shape_of_drop h
      rw [forward_ok d true st hn, forward_ok d true st2 hn]
      rfl
    · rw [forward_err d true st h, forward_err d true st2 h]

/-- C7: display_gradients walks every parameter of the five stages and the
two heads in stage order and fails with its assert exactly when some
parameter's gradient is absent; on the gradient state left by one forward
and one backward pass through a loss combining both outputs (every
parameter populated, modelled from the spec since the training loop is
external) it completes without triggering the assert. The embedding only
reads the gradient slots, so no model state is modified. -/
theorem C7_display_gradients_contract :
    (∀ g : GradState, isOkE (display_gradients g) = true ↔
      ∀ l ∈ g.layers, ∀ o ∈ l, o.isSome = true) ∧
    isOkE (display_gradients gradsAfterBackward) = true := by
  constructor
  · intro g
    exact displayModules_isOk g.layers 0
  · rfl

/-- C8: the vector fed to both heads is the per-example 512-dimensional
global average of the final 512x16x16 feature map: it has shape (N, 512),
entry (b, i) is the mean of channel i of example b over the 16x16 spatial
extent, and forward applies both heads exactly to this vector. -/
theorem C8_pooled_feature_vector (d : Discriminator) (tr : Bool) (st : BNStates)
    (N : Nat) (x : Tensor) (hx : x.shape = [N, 3, 256, 256]) :
    (d.flat tr st x).shape = [N, 512] ∧
    (∀ b i : Nat, (d.flat tr st x).data [b, i] =
      (∑ a ∈ Finset.range 16, ∑ c ∈ Finset.range 16,
        (d.x5 tr st x).data [b, i, a, c]) / (256 : ℝ)) ∧
    d.forward tr st x =
      (Except.ok (d.probabilities (d.flat tr st x), d.styles (d.flat tr st x)),
        d.nextStates tr st x) := by
  have h5 := x5_shape d tr st hx
  refine ⟨flat_shape d tr st hx, ?_, forward_ok d tr st hx⟩
  intro b i
  simp [Discriminator.flat, flatten, avgPool2d, Tensor.dim, h5]
  simp [Nat.mod_one]
  norm_num

/-- Witness for C8 at a concrete all-zero batch of size 1. -/
theorem C8_witness :
    (zeroTensor [1, 3, 256, 256]).shape = [1, 3, 256, 256] ∧
    ((d0.flat true st0 (zeroTensor [1, 3, 256, 256])).shape = [1, 512] ∧
      (∀ b i : Nat, (d0.flat true st0 (zeroTensor [1, 3, 256, 256])).data [b, i] =
        (∑ a ∈ Finset.range 16, ∑ c ∈ Finset.range 16,
          (d0.x5 true st0 (zeroTensor [1, 3, 256, 256])).data [b, i, a, c]) / (256 : ℝ)) ∧
      d0.forward true st0 (zeroTensor [1, 3, 256, 256]) =
        (Except.ok
          (d0.probabilities (d0.flat true st0 (zeroTensor [1, 3, 256, 256])),
            d0.styles (d0.flat true st0 (zeroTensor [1, 3, 256, 256]))),
          d0.nextStates true st0 (zeroTensor [1, 3, 256, 256]))) :=
  ⟨rfl, C8_pooled_feature_vector d0 true st0 1 (zeroTensor [1, 3, 256, 256]) rfl⟩

/-- C9: for a batch of size exactly 1 the style output is the all-ones
vector, for every input image and every choice of weights, because the
softmax normalizes over the singleton batch axis; it is therefore not a
categorical distribution over classes for single-example batches. -/
theorem C9_singleton_batch_styles_all_one (d : Discriminator) (tr : Bool) (st : BNStates)
    (x : Tensor) (hx : x.shape = [1, 3, 256, 256]) :
    ∃ probs styles st2,
      d.forward tr st x = (Except.ok (probs, styles), st2) ∧
      ∀ j : Nat, styles.data [0, j] = 1 := by
  refine ⟨_, _, _, forward_ok d tr st hx, ?_⟩
  intro j
  rw [stylesOut_data d tr st hx 0 j, Finset.sum_range_one]
  exact div_self (Real.exp_ne_zero _)

/-- Witness for C9 at a concrete all-zero single-example batch. -/
theorem C9_witness :
    (zeroTensor [1, 3, 256, 256]).shape = [1, 3, 256, 256] ∧
    (∃ probs styles st2,
      d0.forward true st0 (zeroTensor [1, 3, 256, 256]) = (Except.ok (probs, styles), st2) ∧
      ∀ j : Nat, styles.data [0, j] = 1) :=
  ⟨rfl, C9_singleton_batch_styles_all_one d0 true st0 (zeroTensor [1, 3, 256, 256]) rfl⟩

/-- C10: whenever the initial input-shape assert passes, every later shape
assert in forward passes as well and forward returns successfully, for
every choice of weights, mode and buffers: the input check is the only
reachable shape-assert failure point. -/
theorem C10_input_check_only_failure (d : Discriminator) (tr : Bool) (st : BNStates)
    (x : Tensor) (hx : x.shape.drop 1 = [3, 256, 256]) :
    ∃ r st2, d.forward tr st x = (Except.ok r, st2) := by
  obtain ⟨n, hn⟩ := shape_of_drop hx
  exact ⟨_, _, forward_ok d tr st hn⟩

/-- Witness for C10 at a concrete all-zero batch of size 2. -/
theorem C10_witness :
    (zeroTensor [2, 3, 256, 256]).shape.drop 1 = [3, 256, 256] ∧
    ∃ r st2, d0.forward true st0 (zeroTensor [2, 3, 256, 256]) = (Except.ok r, st2) :=
  ⟨by decide, C10_input_check_only_failure d0 true st0 (zeroTensor [2, 3, 256, 256]) (by decide)⟩

end

end StyleGAN
